import Mathlib

/-
Verification of the render3 template-instruction runtime and template
compiler of this repository.  The repository ships the styling instruction
wrappers (src/unnamed/part_001), the ambient-state module, and the test
suites; the algorithmic cores (styling merge, node-injector resolution,
TView caching, instruction emission) are exercised only through their tests,
so those cores are modelled here from the specification and settled against
it.
-/

namespace Render3

/-! ## JavaScript-value embedding -/

/-- A JavaScript value as far as the binding instructions observe it:
`undefined`, `null`, strings, numbers and booleans. -/
inductive JSVal where
  | undef
  | jsNull
  | str (s : String)
  | num (n : Int)
  | bool (b : Bool)
deriving DecidableEq

/-- Modelled from the spec: `renderStringify` from `util/misc_utils.ts` (the
implementation is not under src; `part_001` imports it).  A string is
returned as-is, `null`/`undefined` stringify to the empty string, any other
value is concatenated onto the empty string. -/
def renderStringify : JSVal → String
  | .str s => s
  | .undef => ""
  | .jsNull => ""
  | .num n => toString n
  | .bool b => if b then "true" else "false"

/-! ## Text bindings and binding slots (dirty checking) -/

/-- The value an update instruction receives: either the `NO_CHANGE`
sentinel produced by `bind()` when the value did not change, or an actual
bound value. -/
inductive BindValue where
  | noChange
  | val (v : JSVal)
deriving DecidableEq

/-- Modelled from the spec: the `bind()` dirty check.  Compares the incoming
value against the previously stored binding value (`none` before the first
update pass); returns the new stored value together with `NO_CHANGE` when
the value is unchanged. -/
def bindCheck (stored : Option JSVal) (v : JSVal) : Option JSVal × BindValue :=
  match stored with
  | some o => if o = v then (some o, .noChange) else (some v, .val v)
  | none => (some v, .val v)

/-- Modelled from the spec: the `textBinding` update instruction.  On
`NO_CHANGE` it leaves the rendered text alone and performs no renderer
call; otherwise it stringifies the value and issues one `setText` renderer
call.  Returns the rendered text and the number of renderer calls. -/
def textBinding (rendered : String) (v : BindValue) : String × Nat :=
  match v with
  | .noChange => (rendered, 0)
  | .val v => (renderStringify v, 1)

/-- Modelled from the spec: one update-instruction step for a single
binding slot.  The incoming value `none` stands for the `NO_CHANGE`
sentinel; an unchanged value performs no host mutation.  Returns the new
stored value and the number of renderer (host-mutation) calls issued. -/
def updateSlot (stored : Option JSVal) (v : Option JSVal) : Option JSVal × Nat :=
  match v with
  | none => (stored, 0)
  | some v =>
    match stored with
    | some o => if o = v then (some o, 0) else (some v, 1)
    | none => (some v, 1)

/-- Modelled from the spec: a view's update block, executed once per
change-detection pass.  Each binding slot is dirty-checked against its
stored previous value; the result is the new slot contents and the total
number of renderer calls of the pass. -/
def runUpdateBlock : List (Option JSVal) → List (Option JSVal) → List (Option JSVal) × Nat
  | stored, [] => (stored, 0)
  | [], _ :: _ => ([], 0)
  | s :: ss, v :: vs =>
    let r := updateSlot s v
    let rest := runUpdateBlock ss vs
    (r.1 :: rest.1, r.2 + rest.2)

/-! ## Injector bloom filter -/

/-- The 8-word (256-bit) injector bloom summary stored at a node-injector
boundary, as laid out in the mock TView of the bloom-filter tests:
word `b0` holds bits 0–31, …, word `b7` holds bits 224–255. -/
structure BloomFilter where
  b0 : Nat
  b1 : Nat
  b2 : Nat
  b3 : Nat
  b4 : Nat
  b5 : Nat
  b6 : Nat
  b7 : Nat
deriving DecidableEq

/-- The empty bloom summary (all words zero), the state of a freshly
created node injector. -/
def emptyBloom : BloomFilter := ⟨0, 0, 0, 0, 0, 0, 0, 0⟩

/-- The word of the filter holding a given bit position (bit / 32). -/
def BloomFilter.word (bf : BloomFilter) (w : Nat) : Nat :=
  if w = 0 then bf.b0
  else if w = 1 then bf.b1
  else if w = 2 then bf.b2
  else if w = 3 then bf.b3
  else if w = 4 then bf.b4
  else if w = 5 then bf.b5
  else if w = 6 then bf.b6
  else bf.b7

/-- Modelled from the spec: `bloomHashBitOrFactory` from `render3/di.ts`
(not under src; only its tests are) restricted to directive tokens with an
assigned integer id — the id is hashed to one of 256 bit positions. -/
def bloomHash (id : Nat) : Nat := id % 256

/-- Modelled from the spec: `bloomAdd` from `render3/di.ts` (not under src;
only its tests are).  The token's id selects bit `id % 256`; the word is
`bit / 32` and within the word the mask is `1 <<< (bit % 32)` (matching the
32-bit JavaScript shift). -/
def bloomAdd (bf : BloomFilter) (id : Nat) : BloomFilter :=
  let bit := id % 256
  let mask := 1 <<< (bit % 32)
  let w := bit / 32
  if w = 0 then { bf with b0 := bf.b0 ||| mask }
  else if w = 1 then { bf with b1 := bf.b1 ||| mask }
  else if w = 2 then { bf with b2 := bf.b2 ||| mask }
  else if w = 3 then { bf with b3 := bf.b3 ||| mask }
  else if w = 4 then { bf with b4 := bf.b4 ||| mask }
  else if w = 5 then { bf with b5 := bf.b5 ||| mask }
  else if w = 6 then { bf with b6 := bf.b6 ||| mask }
  else { bf with b7 := bf.b7 ||| mask }

/-- Modelled from the spec: `bloomHasToken` from `render3/di.ts` (not under
src; only its tests are).  Tests the bit selected by the token's bloom
hash. -/
def bloomHasToken (bf : BloomFilter) (hash : Nat) : Bool :=
  let bit := hash % 256
  let mask := 1 <<< (bit % 32)
  (bf.word (bit / 32)) &&& mask != 0

/-- Modelled from the spec: the exact fall-through check — a bloom hit is
only a pre-filter, resolution confirms the token against the list of
directive tokens actually registered at the boundary. -/
def injectorGetDirective (bf : BloomFilter) (registered : List Nat) (id : Nat) : Option Nat :=
  if bloomHasToken bf (bloomHash id) then
    if registered.contains id then some id else none
  else none

/-! ## Styling context engine -/

/-- A contributor's current value for one class name or style property:
`null` (absent), a string value, or a boolean (class on/off).  The merge
treats `null` and `false` as "no value". -/
inductive CVal where
  | nullV
  | strV (s : String)
  | boolV (b : Bool)
deriving DecidableEq

/-- Whether a contributor value takes part in the merge walk: the spec's
"first non-null/non-false value found". -/
def CVal.isDefined : CVal → Bool
  | .nullV => false
  | .boolV b => b
  | .strV _ => true

/-- Modelled from the spec: the per-property styling context of
`styling/class_and_style_bindings.ts` (not under src; only the instruction
wrappers in part_001 and the tests are).  For a single class name or style
property it records the static initial attribute value, the template-level
binding's current value, one slot per directive host binding in directive
registration order, and the value of a `forceOverride` write if one was
made. -/
structure PropStylingContext where
  initialValue : CVal
  templateValue : CVal
  dirValues : List CVal
  forcedValue : Option CVal
deriving DecidableEq

/-- First defined (non-null/non-false) value of a contributor list. -/
def firstDefined : List CVal → Option CVal
  | [] => none
  | v :: vs => if v.isDefined then some v else firstDefined vs

/-- Modelled from the spec: the merge ("apply") pass — contributors are
walked from highest to lowest priority (latest-registered directive first,
then earlier directives, then the template binding), the first
non-null/non-false value wins, and only if all are empty the static initial
value is restored.  A `forceOverride` write bypasses the walk entirely. -/
def mergedValue (c : PropStylingContext) : CVal :=
  match c.forcedValue with
  | some v => v
  | none =>
    match firstDefined c.dirValues.reverse with
    | some v => v
    | none => if c.templateValue.isDefined then c.templateValue else c.initialValue

/-- Modelled from the spec: a contributor write into the context
(`updateStyleProp` / `updateClassProp` / `updateStylingMap` for one
property).  `dirIndex = none` writes the template-level slot, `some i`
writes directive `i`'s slot; a write with `forceOverride` set is applied
immediately and unconditionally. -/
def writeProp (c : PropStylingContext) (dirIndex : Option Nat) (v : CVal)
    (forceOverride : Bool) : PropStylingContext :=
  let c' :=
    match dirIndex with
    | none => { c with templateValue := v }
    | some i => { c with dirValues := c.dirValues.set i v }
  if forceOverride then { c' with forcedValue := some v } else c'

/-- From src/unnamed/part_001, `elementStylePropInternal`: the value handed
to the styling context.  A `null` binding value stays `null`; with a suffix
the value is stringified and the suffix concatenated at the point of
writing; otherwise the value is passed through as a string. -/
def elementStylePropValueToAdd (value : JSVal) (suffix : Option String) : Option String :=
  match value with
  | .jsNull => none
  | v =>
    match suffix with
    | some sfx => some (renderStringify v ++ sfx)
    | none => some (renderStringify v)

/-! ## Once-per-template metadata caching -/

/-- The node metadata ("TView") blueprint of a compiled template.  The
`stamp` is the identity of the computed object: every fresh computation
would produce a distinct stamp, so stamp equality models reference
equality. -/
structure TViewM where
  stamp : Nat
deriving DecidableEq

/-- A compiled template function together with the metadata cached on it
(the `ngPrivateData` property; `none` before the first-ever execution). -/
structure TemplateFnM where
  ngPrivateData : Option TViewM
deriving DecidableEq

/-- Modelled from the spec: `getOrCreateTView` from
`render3/instructions/shared.ts` (not under src; only its tests are).  On
the template's first-ever execution the metadata is computed (one
computation, identity `fresh`) and cached on the function; afterwards the
cached object is returned unchanged.  Returns the updated function, the
metadata used for this execution, and the number of computations
performed. -/
def getOrCreateTView (t : TemplateFnM) (fresh : Nat) : TemplateFnM × TViewM × Nat :=
  match t.ngPrivateData with
  | some tv => (t, tv, 0)
  | none => ({ ngPrivateData := some (TViewM.mk fresh) }, TViewM.mk fresh, 1)

/-- Modelled from the spec: `n` successive instantiations/re-executions of
the same compiled template function.  `fresh` numbers the identities handed
to any recomputation, so recomputation or per-instance mutation would be
visible as differing stamps.  Returns the final function, the metadata each
execution used (in order), and the total number of computations. -/
def renderViews : Nat → TemplateFnM → Nat → TemplateFnM × List TViewM × Nat
  | 0, t, _ => (t, [], 0)
  | n + 1, t, fresh =>
    let r := getOrCreateTView t fresh
    let rest := renderViews n r.1 (fresh + 1)
    (rest.1, r.2.1 :: rest.2.1, r.2.2 + rest.2.2)

/-! ## Directive construction and node-injector resolution -/

/-- An injector-resolution failure: the not-found error names the requested
token, the circular-dependency error names the token whose factory was
re-entered; `outOfFuel` is an artifact of the bounded recursion of the
model and never occurs for adequately fueled runs. -/
inductive DIError where
  | notFound (token : Nat)
  | circularDep (token : Nat)
  | outOfFuel
deriving DecidableEq

/-- A directive definition on a node: its token and the tokens its factory
injects, in the order the factory requests them. -/
structure DirDef where
  token : Nat
  deps : List Nat
deriving DecidableEq

/-- The creation-mode instantiation state on one node: the tokens whose
construction has completed (in completion order — the construction log) and
the tokens whose factory is currently running (the CIRCULAR sentinel). -/
structure DIState where
  constructed : List Nat
  resolving : List Nat
deriving DecidableEq

/-- The directive definition registered on the node for a token. -/
def findDef (defs : List DirDef) (tok : Nat) : Option DirDef :=
  defs.find? (fun d => d.token == tok)

/-- Modelled from the spec: eager, memoized resolution of a list of tokens
during creation-mode directive instantiation (`directiveInject` /
`getOrCreateInjectable` of `render3/di.ts`, not under src; only its tests
are).  An already-constructed directive is reused; a token whose factory is
currently running is a circular dependency; an unregistered token is
not-found; otherwise the token's dependencies are resolved first (eagerly,
left to right) and only then is the directive itself constructed. -/
def resolveTokens (fuel : Nat) (defs : List DirDef) (st : DIState) (toks : List Nat) :
    Except DIError DIState :=
  match fuel with
  | 0 => .error .outOfFuel
  | fuel + 1 =>
    match toks with
    | [] => .ok st
    | tok :: rest =>
      if tok ∈ st.constructed then resolveTokens fuel defs st rest
      else if tok ∈ st.resolving then .error (.circularDep tok)
      else
        match findDef defs tok with
        | none => .error (.notFound tok)
        | some d =>
          match resolveTokens fuel defs { st with resolving := tok :: st.resolving } d.deps with
          | .error e => .error e
          | .ok st2 =>
            resolveTokens fuel defs
              { constructed := st2.constructed ++ [tok],
                resolving := st2.resolving.erase tok } rest

/-- Fuel sufficient for any run over the given definitions. -/
def diFuel (defs : List DirDef) : Nat :=
  (defs.length + 1) * (1 + defs.foldl (fun a d => a + d.deps.length) 0) + 1

/-- Modelled from the spec: creation-mode instantiation of all directives
declared on one node (`instantiateAllDirectives`, not under src), in
declaration order, each factory's injected tokens resolved eagerly and
memoized first.  Returns the construction log (completion order). -/
def instantiateAllDirectives (defs : List DirDef) : Except DIError (List Nat) :=
  (resolveTokens (diFuel defs) defs ⟨[], []⟩ (defs.map (fun d => d.token))).map
    (fun st => st.constructed)

/-- The modifier flags of an injection request. -/
structure InjFlags where
  optional : Bool
  self : Bool
  skipSelf : Bool
deriving DecidableEq

/-- Modelled from the spec: the node-injector walk of `render3/di.ts` (not
under src; only its tests are), restricted to the flags the claim needs.
The injector chain is the list of token sets visible at the requesting node
and its ancestors (nearest first).  `@Self` restricts the search to the
node itself, `@SkipSelf` starts at the parent.  A failed search throws a
not-found error naming the token unless `@Optional` converts it into a
`none` result. -/
def lookupToken (chain : List (List Nat)) (tok : Nat) (fl : InjFlags) :
    Except DIError (Option Nat) :=
  let searchSpace :=
    if fl.self then [chain.headD []]
    else if fl.skipSelf then chain.tail
    else chain
  match searchSpace.find? (fun node => node.contains tok) with
  | some _ => .ok (some tok)
  | none => if fl.optional then .ok none else .error (.notFound tok)

/-! ## Generated-name disambiguation -/

/-- The nesting structure of a compiled template's nested template
functions, in first-child/next-sibling form (mirroring the runtime's
child/next node links): `node child sibling` is a nested template whose own
nested templates are `child` and whose later sibling templates (within the
same enclosing template) are `sibling`. -/
inductive TmplTree where
  | leaf
  | node (child : TmplTree) (sibling : TmplTree)
deriving DecidableEq

/-- Modelled from the spec: the disambiguation content of every generated
nested-template function name — the chain of running-counter values, one
counter per enclosing template.  `p` is the enclosing template's chain and
`i` the running counter at the current sibling position. -/
def templatePaths : TmplTree → List Nat → Nat → List (List Nat)
  | .leaf, _, _ => []
  | .node child sib, p, i =>
    (p ++ [i]) :: (templatePaths child (p ++ [i]) 0 ++ templatePaths sib p (i + 1))

/-- Modelled from the spec: the generated nested-template function names —
the enclosing template's name extended with the running counter scoped to
that enclosing template (never content hashing). -/
def templateFnNames : TmplTree → String → Nat → List String
  | .leaf, _, _ => []
  | .node child sib, pfx, i =>
    let nm := pfx ++ "_" ++ toString i ++ "_Template"
    nm :: (templateFnNames child nm 0 ++ templateFnNames sib pfx (i + 1))

/-- Modelled from the spec: a generated event-listener closure name — the
enclosing template function's name extended with the listener's running
counter within that template. -/
def listenerFnName (tmplName : String) (i : Nat) : String :=
  tmplName ++ "_click_" ++ toString i ++ "_listener"

/-- The nested-template structure of the AComponent compliance test: two
sibling *ngFor divs, the first containing two structurally identical *ngIf
branches, the second containing one. -/
def aComponentTree : TmplTree :=
  .node (.node .leaf (.node .leaf .leaf)) (.node (.node .leaf .leaf) .leaf)

/-! ## Styling-instruction emission order -/

/-- A styling-related item as it appears, in source order, on one element
of a template: a static style/class attribute, the `[style]`/`[class]` map
binding, a single-property binding, or an `[attr.style]`/`[attr.class]`
binding. -/
inductive StyleBindingSrc where
  | staticAttr (prop val : String)
  | mapBinding (expr : String)
  | propBinding (prop expr : String)
  | attrBinding (expr : String)
deriving DecidableEq

/-- A compiler-emitted styling instruction for one element (creation-block
allocation followed by the update-block instructions). -/
inductive StyleInstr where
  | elementStart (statics : List (String × String))
  | elementStyling (props : List String)
  | elementStylingMap (expr : String)
  | elementStyleProp (idx : Nat) (expr : String)
  | elementStylingApply
  | elementAttribute (expr : String)
deriving DecidableEq

/-- The static attributes among the source items, in source order. -/
def staticsOf (src : List StyleBindingSrc) : List (String × String) :=
  src.filterMap (fun s => match s with | .staticAttr p v => some (p, v) | _ => none)

/-- The map-binding expressions among the source items. -/
def mapsOf (src : List StyleBindingSrc) : List String :=
  src.filterMap (fun s => match s with | .mapBinding e => some e | _ => none)

/-- The single-property bindings among the source items, in declared
order. -/
def propsOf (src : List StyleBindingSrc) : List (String × String) :=
  src.filterMap (fun s => match s with | .propBinding p e => some (p, e) | _ => none)

/-- The `[attr.*]` binding expressions among the source items. -/
def attrsOf (src : List StyleBindingSrc) : List String :=
  src.filterMap (fun s => match s with | .attrBinding e => some e | _ => none)

/-- Modelled from the spec: the fixed styling-instruction emission order of
the template compiler — static-attribute styling and the allocation
instruction, then the map-binding instruction, then each single-property
instruction in declared order, then the apply instruction, then the
`[attr.*]` overrides — regardless of where the items appear in the
source. -/
def emitStylingInstructions (src : List StyleBindingSrc) : List StyleInstr :=
  [StyleInstr.elementStart (staticsOf src),
   StyleInstr.elementStyling ((propsOf src).map (fun p => p.1))]
  ++ (mapsOf src).map StyleInstr.elementStylingMap
  ++ ((propsOf src).enum.map (fun pe => StyleInstr.elementStyleProp pe.1 pe.2.2))
  ++ [StyleInstr.elementStylingApply]
  ++ (attrsOf src).map StyleInstr.elementAttribute

/-- The source items of the style-ordering compliance test, in template
source order: static `style="opacity:1"`, `[attr.style]`, `[style.width]`,
`[style]`, `[style.height]`. -/
def styleOrderingSrc : List StyleBindingSrc :=
  [.staticAttr "opacity" "1",
   .attrBinding "border-width: 10px",
   .propBinding "width" "myWidth",
   .mapBinding "myStyleExp",
   .propBinding "height" "myHeight"]

/-- The source items of the class-ordering compliance test, in template
source order: static `class="grape"`, `[attr.class]`, `[class.apple]`,
`[class]`, `[class.orange]`. -/
def classOrderingSrc : List StyleBindingSrc :=
  [.staticAttr "class" "grape",
   .attrBinding "banana",
   .propBinding "apple" "yesToApple",
   .mapBinding "myClassExp",
   .propBinding "orange" "yesToOrange"]

/-! ## Helper lemmas -/

/-- Setting a bit and then testing it with the same mask is never zero. -/
theorem land_lor_shift_ne_zero (x k : Nat) : ((x ||| (1 <<< k)) &&& (1 <<< k)) ≠ 0 := by
  have h : ((x ||| (1 <<< k)) &&& (1 <<< k)).testBit k = true := by
    simp [Nat.testBit_land, Nat.testBit_lor, Nat.one_shiftLeft, Nat.testBit_two_pow_self]
  intro h0
  rw [h0] at h
  simp at h

/-- After `bloomAdd`, the word holding the token's bit is the old word with
the token's mask or-ed in. -/
theorem bloomAdd_word_self (bf : BloomFilter) (id : Nat) :
    (bloomAdd bf id).word (id % 256 / 32) =
      bf.word (id % 256 / 32) ||| (1 <<< (id % 256 % 32)) := by
  have h8 : id % 256 / 32 = 0 ∨ id % 256 / 32 = 1 ∨ id % 256 / 32 = 2 ∨ id % 256 / 32 = 3 ∨
      id % 256 / 32 = 4 ∨ id % 256 / 32 = 5 ∨ id % 256 / 32 = 6 ∨ id % 256 / 32 = 7 := by
    omega
  rcases h8 with h | h | h | h | h | h | h | h <;>
    simp [bloomAdd, BloomFilter.word, h]

/-- `updateSlot` is idempotent: re-running a slot update with the value it
just stored issues no renderer call and leaves the slot unchanged. -/
theorem updateSlot_twice (s v : Option JSVal) :
    updateSlot (updateSlot s v).1 v = ((updateSlot s v).1, 0) := by
  match v, s with
  | none, s => simp [updateSlot]
  | some v, none => simp [updateSlot]
  | some v, some o =>
    by_cases h : o = v <;> simp [updateSlot, h]

/-- Re-running a whole update block on the state it just produced, with the
same binding values, issues zero renderer calls. -/
theorem runUpdateBlock_second_pass_silent (vals stored : List (Option JSVal)) :
    (runUpdateBlock (runUpdateBlock stored vals).1 vals).2 = 0 := by
  induction vals generalizing stored with
  | nil => simp [runUpdateBlock]
  | cons v vs ih =>
    cases stored with
    | nil => simp [runUpdateBlock]
    | cons s ss => simp [runUpdateBlock, updateSlot_twice, ih]

/-! ## Claim theorems -/

/-- C7: Bloom filter soundness — every token added to a node's bloom summary
via bloomAdd is afterwards reported present by bloomHasToken (false
negatives are impossible), while a token never added may still hit (ids 256
apart collide: id 257 hits a filter holding only id 1), in which case the
exact registered-token check rejects it. -/
theorem bloom_filter_soundness :
    (∀ (bf : BloomFilter) (id : Nat), bloomHasToken (bloomAdd bf id) (bloomHash id) = true)
    ∧ bloomHasToken (bloomAdd emptyBloom 1) (bloomHash 257) = true
    ∧ injectorGetDirective (bloomAdd emptyBloom 1) [1] 257 = none := by
  refine ⟨?_, by decide, by decide⟩
  intro bf id
  have hmm : bloomHash id % 256 = id % 256 := by
    simp [bloomHash, Nat.mod_mod_of_dvd]
  simp only [bloomHasToken, hmm, bloomAdd_word_self, bne_iff_ne, ne_eq]
  exact land_lor_shift_ne_zero _ _

/-- C10: a text binding updated via textBinding with a bind() value renders
undefined and null as the empty string (not the strings "undefined" or
"null"), and renders any string value as itself. -/
theorem textBinding_null_undefined_render_empty :
    (∀ rendered : String, (textBinding rendered (bindCheck none .undef).2).1 = "")
    ∧ (∀ rendered : String, (textBinding rendered (bindCheck none .jsNull).2).1 = "")
    ∧ (∀ (rendered s : String), (textBinding rendered (bindCheck none (.str s)).2).1 = s) :=
  ⟨fun _ => rfl, fun _ => rfl, fun _ _ => rfl⟩

/-- C3: idempotent update pass — an update instruction receiving the
NO_CHANGE sentinel performs no renderer call, one receiving a value equal to
the stored previous value performs no renderer call, and re-running a whole
update block with unchanged binding values issues zero renderer calls on the
second run. -/
theorem update_pass_idempotent :
    (∀ stored : Option JSVal, updateSlot stored none = (stored, 0))
    ∧ (∀ v : JSVal, updateSlot (some v) (some v) = (some v, 0))
    ∧ (∀ stored vals : List (Option JSVal),
        (runUpdateBlock (runUpdateBlock stored vals).1 vals).2 = 0) := by
  refine ⟨fun _ => rfl, fun v => by simp [updateSlot], fun stored vals => ?_⟩
  exact runUpdateBlock_second_pass_silent vals stored

/-- With the cache already populated, further renders reuse the identical
cached metadata and never recompute. -/
theorem renderViews_cached (n : Nat) (tv : TViewM) (c : Nat) :
    renderViews n ⟨some tv⟩ c = (⟨some tv⟩, List.replicate n tv, 0) := by
  induction n generalizing c with
  | zero => simp [renderViews]
  | succ n ih => simp [renderViews, getOrCreateTView, ih, List.replicate_succ]

/-- C1: styling merge priority — for contributors registered in order
[static, template, dirA, dirB]: dirB's non-null value wins regardless of the
others; when dirB is null a non-null dirA wins over the template and static
values; when both directives are null/false a non-null template value wins
over the static value; when everything is null/false the static initial
value is restored; and a write with forceOverride set wins
unconditionally. -/
theorem styling_merge_priority :
    (∀ (s t a b : CVal), b.isDefined = true →
        mergedValue ⟨s, t, [a, b], none⟩ = b)
    ∧ (∀ (s t a : CVal), a.isDefined = true →
        mergedValue ⟨s, t, [a, CVal.nullV], none⟩ = a)
    ∧ (∀ (s t a b : CVal), a.isDefined = false → b.isDefined = false →
        t.isDefined = true → mergedValue ⟨s, t, [a, b], none⟩ = t)
    ∧ (∀ (s t a b : CVal), t.isDefined = false → a.isDefined = false →
        b.isDefined = false → mergedValue ⟨s, t, [a, b], none⟩ = s)
    ∧ (∀ (c : PropStylingContext) (dirIndex : Option Nat) (v : CVal),
        mergedValue (writeProp c dirIndex v true) = v) := by
  refine ⟨?_, ?_, ?_, ?_, ?_⟩
  · intro s t a b hb
    simp [mergedValue, firstDefined, hb]
  · intro s t a ha
    have hnull : CVal.nullV.isDefined = false := rfl
    simp [mergedValue, firstDefined, ha, hnull]
  · intro s t a b ha hb ht
    simp [mergedValue, firstDefined, ha, hb, ht]
  · intro s t a b ht ha hb
    simp [mergedValue, firstDefined, ha, hb, ht]
  · intro c dirIndex v
    cases dirIndex <;> simp [writeProp, mergedValue]

/-- Witness for C1 at concrete contributor values. -/
theorem styling_merge_priority_witness :
    mergedValue ⟨.strV "static", .strV "tmpl", [.strV "a", .strV "b"], none⟩ = .strV "b"
    ∧ mergedValue ⟨.strV "static", .strV "tmpl", [.strV "a", .nullV], none⟩ = .strV "a"
    ∧ mergedValue ⟨.strV "static", .strV "tmpl", [.nullV, .boolV false], none⟩ = .strV "tmpl"
    ∧ mergedValue ⟨.strV "static", .nullV, [.nullV, .nullV], none⟩ = .strV "static"
    ∧ mergedValue
        (writeProp ⟨.strV "static", .strV "tmpl", [.strV "a", .strV "b"], none⟩
          (some 0) (.strV "forced") true) = .strV "forced" :=
  ⟨styling_merge_priority.1 _ _ _ _ (by decide),
   styling_merge_priority.2.1 _ _ _ (by decide),
   styling_merge_priority.2.2.1 _ _ _ _ (by decide) (by decide) (by decide),
   styling_merge_priority.2.2.2.1 _ _ _ _ (by decide) (by decide) (by decide),
   styling_merge_priority.2.2.2.2 _ _ _⟩

/-- C2: once-per-template metadata caching — over any number of executions
of a compiled template function, the node metadata is computed exactly once
(on the first-ever execution), every execution uses the identical
(same-identity) metadata object, and the function's cache still holds that
object unchanged afterwards. -/
theorem tview_computed_once_and_shared (n fresh : Nat) :
    (renderViews (n + 1) ⟨none⟩ fresh).2.2 = 1
    ∧ (renderViews (n + 1) ⟨none⟩ fresh).2.1 = List.replicate (n + 1) (TViewM.mk fresh)
    ∧ (renderViews (n + 1) ⟨none⟩ fresh).1 = ⟨some (TViewM.mk fresh)⟩ := by
  refine ⟨?_, ?_, ?_⟩ <;>
    simp [renderViews, getOrCreateTView, renderViews_cached, List.replicate_succ]

/-- Two directives where the first injects the second: the dependency is
resolved eagerly and memoized, so the construction log is [t2, t1]. -/
theorem resolveTokens_dep_order (fuel t1 t2 : Nat) (h : t1 ≠ t2) :
    resolveTokens (fuel + 3) [⟨t1, [t2]⟩, ⟨t2, []⟩] ⟨[], []⟩ [t1, t2] =
      .ok ⟨[t2, t1], []⟩ := by
  simp [resolveTokens, findDef, h, Ne.symm h]

/-- C4: dependency-ordered directive construction — for directives declared
in order [D1, D2] on one element where D1's factory injects D2, creation
constructs D2 before D1: the construction log is [D2, D1]. -/
theorem directive_dependency_order (t1 t2 : Nat) (h : t1 ≠ t2) :
    instantiateAllDirectives [⟨t1, [t2]⟩, ⟨t2, []⟩] = .ok [t2, t1] := by
  have h7 : diFuel [⟨t1, [t2]⟩, ⟨t2, []⟩] = 4 + 3 := by simp [diFuel]
  simp [instantiateAllDirectives, h7, resolveTokens_dep_order 4 t1 t2 h, Except.map]

/-- Witness for C4 with concrete tokens. -/
theorem directive_dependency_order_witness :
    instantiateAllDirectives [⟨1, [2]⟩, ⟨2, []⟩] = .ok [2, 1] :=
  directive_dependency_order 1 2 (by decide)

/-- Mutually-injecting directives on one node fail with the circular
dependency error naming the re-entered token. -/
theorem resolveTokens_mutual_circular (fuel t1 t2 : Nat) (h : t1 ≠ t2) :
    resolveTokens (fuel + 3) [⟨t1, [t2]⟩, ⟨t2, [t1]⟩] ⟨[], []⟩ [t1, t2] =
      .error (.circularDep t1) := by
  simp [resolveTokens, findDef, h, Ne.symm h]

/-- A directive injecting itself fails with the circular dependency
error naming its own token. -/
theorem resolveTokens_self_circular (fuel t : Nat) :
    resolveTokens (fuel + 2) [⟨t, [t]⟩] ⟨[], []⟩ [t] = .error (.circularDep t) := by
  simp [resolveTokens, findDef]

/-- C6: circular-dependency failure — directives on one node whose
factories inject each other (or a directive injecting itself) make
creation-mode instantiation fail with the circular-dependency error, which
names the re-entered token and is distinct from the not-found error. -/
theorem circular_dependency_error (t1 t2 : Nat) (h : t1 ≠ t2) :
    instantiateAllDirectives [⟨t1, [t2]⟩, ⟨t2, [t1]⟩] = .error (.circularDep t1)
    ∧ (∀ t : Nat, instantiateAllDirectives [⟨t, [t]⟩] = .error (.circularDep t))
    ∧ (∀ tok tok' : Nat, DIError.circularDep tok ≠ DIError.notFound tok') := by
  refine ⟨?_, fun t => ?_, fun tok tok' => by simp⟩
  · have h10 : diFuel [⟨t1, [t2]⟩, ⟨t2, [t1]⟩] = 7 + 3 := by simp [diFuel]
    simp [instantiateAllDirectives, h10, resolveTokens_mutual_circular 7 t1 t2 h, Except.map]
  · have h5 : diFuel [⟨t, [t]⟩] = 3 + 2 := by simp [diFuel]
    simp [instantiateAllDirectives, h5, resolveTokens_self_circular 3 t, Except.map]

/-- Witness for C6 with concrete tokens. -/
theorem circular_dependency_error_witness :
    instantiateAllDirectives [⟨1, [2]⟩, ⟨2, [1]⟩] = .error (.circularDep 1)
    ∧ instantiateAllDirectives [⟨3, [3]⟩] = .error (.circularDep 3) :=
  ⟨(circular_dependency_error 1 2 (by decide)).1,
   (circular_dependency_error 1 2 (by decide)).2.1 3⟩

/-- C5: not-found versus Optional semantics — whenever a lookup fails with
the not-found error (which names the requested token), the same lookup with
the Optional flag returns null instead; in particular a Self lookup for a
token the node itself does not provide fails with not-found naming the
token, and succeeds with null under Optional. -/
theorem not_found_vs_optional :
    (∀ (chain : List (List Nat)) (tok : Nat) (fl : InjFlags),
        lookupToken chain tok fl = .error (.notFound tok) →
        lookupToken chain tok { fl with optional := true } = .ok none)
    ∧ (∀ (chain : List (List Nat)) (tok : Nat),
        tok ∉ chain.headD [] →
        lookupToken chain tok ⟨false, true, false⟩ = .error (.notFound tok)
        ∧ lookupToken chain tok ⟨true, true, false⟩ = .ok none) := by
  constructor
  · intro chain tok fl hfail
    obtain ⟨o, s, k⟩ := fl
    simp only [lookupToken] at hfail ⊢
    split at hfail
    next node heq => simp at hfail
    next heq => rw [heq]; simp
  · intro chain tok hmem
    rw [List.headD_eq_head?_getD] at hmem
    constructor <;> simp [lookupToken, hmem]

/-- Witness for C5 with a concrete chain and token. -/
theorem not_found_vs_optional_witness :
    lookupToken [[5], [7]] 7 ⟨false, true, false⟩ = .error (.notFound 7)
    ∧ lookupToken [[5], [7]] 7 ⟨true, true, false⟩ = .ok none :=
  (not_found_vs_optional).2 [[5], [7]] 7 (by decide)

/-- Every path generated inside a template extends the enclosing chain `p`
with a counter value at least the running counter `i`. -/
theorem templatePaths_shape (t : TmplTree) :
    ∀ (p : List Nat) (i : Nat) (q : List Nat), q ∈ templatePaths t p i →
      ∃ j r, i ≤ j ∧ q = p ++ j :: r := by
  induction t with
  | leaf =>
    intro p i q hq
    simp [templatePaths] at hq
  | node c s ihc ihs =>
    intro p i q hq
    simp only [templatePaths, List.mem_cons, List.mem_append] at hq
    rcases hq with rfl | hq | hq
    · exact ⟨i, [], le_refl i, by simp⟩
    · obtain ⟨j, r, hj, rfl⟩ := ihc (p ++ [i]) 0 q hq
      exact ⟨i, j :: r, le_refl i, by simp⟩
    · obtain ⟨j, r, hj, rfl⟩ := ihs p (i + 1) q hq
      exact ⟨j, r, by omega, rfl⟩

/-- The counter chains of all nested-template functions of a template are
pairwise distinct: the running counter disambiguates siblings and the
enclosing chain disambiguates nesting levels. -/
theorem templatePaths_nodup (t : TmplTree) :
    ∀ (p : List Nat) (i : Nat), (templatePaths t p i).Nodup := by
  induction t with
  | leaf =>
    intro p i
    simp [templatePaths]
  | node c s ihc ihs =>
    intro p i
    simp only [templatePaths]
    refine List.nodup_cons.mpr ⟨?_, List.Nodup.append (ihc _ _) (ihs _ _) ?_⟩
    · intro hmem
      rcases List.mem_append.mp hmem with hq | hq
      · obtain ⟨j, r, hj, heq⟩ := templatePaths_shape c (p ++ [i]) 0 _ hq
        have hlen := congrArg List.length heq
        simp at hlen
      · obtain ⟨j, r, hj, heq⟩ := templatePaths_shape s p (i + 1) _ hq
        have h2 : ([i] : List Nat) = j :: r := List.append_cancel_left heq
        have : i = j := (List.cons.injEq i [] j r).mp h2 |>.1
        omega
    · intro q hqc hqs
      obtain ⟨j, r, hj, heq⟩ := templatePaths_shape c (p ++ [i]) 0 q hqc
      obtain ⟨j', r', hj', heq'⟩ := templatePaths_shape s p (i + 1) q hqs
      rw [heq] at heq'
      have h0 : p ++ (i :: j :: r) = p ++ (j' :: r') := by
        simpa using heq'
      have h1 : (i :: j :: r) = j' :: r' := List.append_cancel_left h0
      have : i = j' := (List.cons.injEq i (j :: r) j' r').mp h1 |>.1
      omega

/-- C8: deterministic collision-free name generation — the counter chains
disambiguating all nested-template function names are pairwise distinct for
every template structure; in particular the AComponent compliance scenario
(two sibling loops, the first containing two structurally identical
branches) yields 5 pairwise distinct generated function names, and the
listener scenario (two identical listeners in one template, one in a
sibling template) yields pairwise distinct listener closure names. -/
theorem generated_names_collision_free :
    (∀ (t : TmplTree) (p : List Nat) (i : Nat), (templatePaths t p i).Nodup)
    ∧ (templateFnNames aComponentTree "AComponent" 0).Nodup
    ∧ (templateFnNames aComponentTree "AComponent" 0).length = 5
    ∧ [listenerFnName "MyComponent_0_Template" 0,
       listenerFnName "MyComponent_0_Template" 1,
       listenerFnName "MyComponent_1_Template" 0].Nodup :=
  ⟨templatePaths_nodup, by decide, by decide, by decide⟩

/-- The style-ordering compliance source with the `[attr.style]` and
`[style]` bindings moved to the end of the source order; the per-category
contents are unchanged. -/
def styleOrderingSrcReordered : List StyleBindingSrc :=
  [.staticAttr "opacity" "1",
   .propBinding "width" "myWidth",
   .propBinding "height" "myHeight",
   .mapBinding "myStyleExp",
   .attrBinding "border-width: 10px"]

/-- C9: fixed styling-instruction emission order — for the style and class
compliance scenarios (whose source order interleaves static attribute,
[attr.*] binding, single-property bindings and the map binding) the emitted
instructions are: static allocation, map binding, each single-property
binding in declared order, apply, then the [attr.*] override; and emission
depends only on the per-category contents, not on source position. -/
theorem styling_emission_fixed_order :
    emitStylingInstructions styleOrderingSrc =
      [.elementStart [("opacity", "1")],
       .elementStyling ["width", "height"],
       .elementStylingMap "myStyleExp",
       .elementStyleProp 0 "myWidth",
       .elementStyleProp 1 "myHeight",
       .elementStylingApply,
       .elementAttribute "border-width: 10px"]
    ∧ emitStylingInstructions classOrderingSrc =
      [.elementStart [("class", "grape")],
       .elementStyling ["apple", "orange"],
       .elementStylingMap "myClassExp",
       .elementStyleProp 0 "yesToApple",
       .elementStyleProp 1 "yesToOrange",
       .elementStylingApply,
       .elementAttribute "banana"]
    ∧ (∀ src1 src2 : List StyleBindingSrc,
        staticsOf src1 = staticsOf src2 → mapsOf src1 = mapsOf src2 →
        propsOf src1 = propsOf src2 → attrsOf src1 = attrsOf src2 →
        emitStylingInstructions src1 = emitStylingInstructions src2) := by
  refine ⟨by decide, by decide, ?_⟩
  intro s1 s2 h1 h2 h3 h4
  simp [emitStylingInstructions, h1, h2, h3, h4]

/-- Witness for C9: reordering the source items leaves the emitted
instruction sequence unchanged. -/
theorem styling_emission_fixed_order_witness :
    emitStylingInstructions styleOrderingSrc =
      emitStylingInstructions styleOrderingSrcReordered :=
  styling_emission_fixed_order.2.2 styleOrderingSrc styleOrderingSrcReordered
    (by decide) (by decide) (by decide) (by decide)

end Render3
